import Mathlib

/-
Verification development for the json-collector repository
(src/collector.py and src/fields.py).

The Python source is shallowly embedded: Python values flowing through the
collector are modelled by the inductive type `Val`, Python exceptions by
`PyExc`, and fallible Python code by `Except PyExc`.  The mutable
`JsonDataCollector` object is modelled by explicit state passing over
`CollectorState`; the SQLite backend is modelled as the list of rows of the
collection's table together with commit bookkeeping (DDL statements such as
CREATE TABLE / CREATE INDEX affect no row content and are not modelled; the
possibility that the engine rejects an INSERT is modelled by the
`insertFault` knob of `CollectorCfg`).
-/

namespace JsonCollector

/-- Python float values as they occur in this code base: either NaN
(`float('nan')`, produced by `Float.default_value_parser` on a missing
value) or an exact numeric value, modelled as a rational. -/
inductive PyFloat
| nan
| num (q : ℚ)
deriving DecidableEq

/-- Python runtime values flowing through the collector.  Dictionaries are
encoded as a cons-chain `dcons key value rest` ending in `dnil` (kept
non-nested so that equality stays decidable and computation stays
kernel-reducible); the helper `Val.mkDict` builds such a chain from an
association list. -/
inductive Val
| none
| str (s : String)
| int (n : ℤ)
| float (f : PyFloat)
| dnil
| dcons (k : String) (v : Val) (rest : Val)
deriving DecidableEq

/-- Build a dictionary value from an association list. -/
def Val.mkDict : List (String × Val) → Val
  | [] => .dnil
  | (k, v) :: es => .dcons k v (Val.mkDict es)

/-- Python's `isinstance(r, dict)`. -/
def Val.isDict : Val → Bool
  | .dnil => true
  | .dcons .. => true
  | _ => false

/-- Python exceptions raised by the embedded code: `RuntimeError` from
`__hash_unique_key`, `ValueError` from validators and failed numeric
conversions, `TypeError` from conversions applied to unsuitable types, and
`sqlite3` errors raised by the storage engine (grouped as `storageError`). -/
inductive PyExc
| runtimeError (msg : String)
| valueError (msg : String)
| typeError (msg : String)
| storageError (msg : String)
deriving DecidableEq

instance {ε α : Type} [DecidableEq ε] [DecidableEq α] : DecidableEq (Except ε α) := fun a b =>
  match a, b with
  | .error e, .error f => if h : e = f then .isTrue (by rw [h]) else .isFalse (by simp [h])
  | .ok x, .ok y => if h : x = y then .isTrue (by rw [h]) else .isFalse (by simp [h])
  | .error _, .ok _ => .isFalse (by simp)
  | .ok _, .error _ => .isFalse (by simp)

/-- Python `==` on the values above.  Numeric cross-type equality
(`1 == 1.0`) holds, NaN is unequal to everything including itself, and
dictionaries are compared entrywise in order (Python compares dicts as
mappings and short-circuits on object identity; the chains built in this
development carry no duplicate keys and are always compared against chains
built in the same order, where the two notions agree for non-NaN leaves;
no claim compares mapping-valued or NaN-valued dictionary entries). -/
def pyEq : Val → Val → Bool
  | .none, .none => true
  | .str s, .str t => s == t
  | .int m, .int n => m == n
  | .int m, .float f => f == .num m
  | .float f, .int m => f == .num m
  | .float .nan, .float _ => false
  | .float _, .float .nan => false
  | .float (.num q), .float (.num r) => q == r
  | .dnil, .dnil => true
  | .dcons k v r, .dcons l w s => k == l && pyEq v w && pyEq r s
  | _, _ => false

/-- Python's `str()` on a float: `"nan"` for NaN; integral values render as
`"3.0"`.  (Non-integral rationals are rendered via their `ℚ`
representation; the claims only ever hash integer and string key values.) -/
def pyStrFloat : PyFloat → String
  | .nan => "nan"
  | .num q => if q.den == 1 then toString q.num ++ ".0" else toString q

/-- Python's `str()` as used by `__hash_unique_key` (`str(value)` of each
unique-key field) and by `String.default_value_parser`.  Dictionary
rendering is abbreviated: no claim hashes or stringifies a mapping-valued
field. -/
def pyStr : Val → String
  | .none => "None"
  | .str s => s
  | .int n => toString n
  | .float f => pyStrFloat f
  | .dnil => "\x7b\x7d"
  | .dcons .. => "<dict>"

/-- Python's `raw_name.split(".")` (on the character list of the string):
splits on every dot, `""` splits to `[""]`. -/
def splitOnDot (cs : List Char) : List String :=
  match cs with
  | [] => [""]
  | c :: rest =>
    let r := splitOnDot rest
    if c == '.' then "" :: r
    else match r with
      | h :: t => (String.mk [c] ++ h) :: t
      | [] => [String.mk [c]]

/-- Value of an all-digit character list, `Option.none` otherwise. -/
def digitsToNat? (cs : List Char) : Option ℕ :=
  if cs.isEmpty then Option.none
  else if cs.all Char.isDigit then
    Option.some (cs.foldl (fun acc c => acc * 10 + (c.toNat - 48)) 0)
  else Option.none

/-- Python's `int(s)` on a string: an optional sign followed by digits
(whitespace stripping and underscore separators are not modelled; no claim
feeds such strings to `int()`). -/
def strToInt? (s : String) : Option ℤ :=
  match s.data with
  | '-' :: rest => (digitsToNat? rest).map (fun n => -(n : ℤ))
  | '+' :: rest => (digitsToNat? rest).map (fun n => (n : ℤ))
  | cs => (digitsToNat? cs).map (fun n => (n : ℤ))

/-- Python's `float(s)` on a string: an optional sign, digits, and an
optional fractional part (exponent forms and leading/trailing-dot forms are
not modelled; no claim feeds such strings to `float()`). -/
def strToRat? (s : String) : Option ℚ :=
  let core : String → Option ℚ := fun t =>
    match splitOnDot t.data with
    | [a] => (digitsToNat? a.data).map (fun n => (n : ℚ))
    | [a, b] =>
        match digitsToNat? a.data, digitsToNat? b.data with
        | Option.some n, Option.some frac =>
            Option.some ((n : ℚ) + (frac : ℚ) / ((10 : ℚ) ^ b.length))
        | _, _ => Option.none
    | _ => Option.none
  match s.data with
  | '-' :: rest => (core (String.mk rest)).map Neg.neg
  | '+' :: rest => core (String.mk rest)
  | _ => core s

/-- Python's `int(v)` applied to a non-None parsed value
(`Int.default_value_parser`). -/
def pyIntCast : Val → Except PyExc ℤ
  | .int n => .ok n
  | .float .nan => .error (.valueError "cannot convert float NaN to integer")
  | .float (.num q) => .ok (if 0 ≤ q then ⌊q⌋ else ⌈q⌉)
  | .str s =>
      match strToInt? s with
      | Option.some n => .ok n
      | Option.none => .error (.valueError ("invalid literal for int with base 10: " ++ s))
  | .none => .error (.typeError "int argument must not be NoneType")
  | v => .error (.typeError ("int argument must be a string or a number, not " ++ pyStr v))

/-- Python's `float(v)` applied to a non-None parsed value
(`Float.default_value_parser`). -/
def pyFloatCast : Val → Except PyExc PyFloat
  | .float f => .ok f
  | .int n => .ok (.num n)
  | .str s =>
      if s == "nan" then .ok .nan
      else
        match strToRat? s with
        | Option.some q => .ok (.num q)
        | Option.none => .error (.valueError ("could not convert string to float: " ++ s))
  | .none => .error (.typeError "float argument must not be NoneType")
  | v => .error (.typeError ("float argument must be a string or a number, not " ++ pyStr v))

/-- Which `fields.py` class a field belongs to; this selects the
`default_value_parser` override and the declared SQLite type.  `blob` is
the base class `Field`, `datetime` is `DateTime` (which declares INTEGER
but inherits the base parser). -/
inductive FType
| blob
| text
| int
| float
| datetime
deriving DecidableEq

/-- One `Field` object from fields.py.  `rawName` is already resolved
(`raw_name if raw_name is not None else name`); the optional custom
`valueParser` replaces `default_value_parser` entirely when present. -/
structure Field where
  name : String
  rawName : String
  defaultValue : Val := Val.none
  valueParser : Option (Val → Except PyExc Val) := Option.none
  valueValidator : Option (Val → Bool) := Option.none
  valueConverter : Option (Val → Val) := Option.none
  ftype : FType := FType.blob

instance : Inhabited Field := ⟨{ name := "", rawName := "" }⟩

/-- The precomputed `self._splited_key_names = self.raw_name.split(".")`. -/
def Field.splitKeys (f : Field) : List String :=
  splitOnDot f.rawName.data

/-- Python's `key in r.keys()` followed by `r[key]` on a dictionary chain;
`Option.none` when the key is absent or the value is not a dictionary. -/
def dictLookup : Val → String → Option Val
  | .dcons k v rest, key => if k == key then Option.some v else dictLookup rest key
  | _, _ => Option.none

/-- The path-walking loop of `Field.default_value_parser`: follow each key
through nested dictionaries; on the first missing key or non-dictionary
value, return early (`Option.none` here models the loop's `return None`,
as opposed to `Option.some Val.none` for successfully reaching a stored
`None`). -/
def walk : Val → List String → Option Val
  | r, [] => Option.some r
  | r, k :: ks =>
      if r.isDict then
        match dictLookup r k with
        | Option.some v => walk v ks
        | Option.none => Option.none
      else Option.none

/-- The body of `Field.default_value_parser` (the base-class extractor):
walk the dotted path, returning `None` immediately on a miss; otherwise run
the validator (raising `ValueError` when it returns `False`) and then the
converter on the value found. -/
def Field.baseParse (f : Field) (record : Val) : Except PyExc Val :=
  match walk record f.splitKeys with
  | Option.none => .ok Val.none
  | Option.some r =>
      if (match f.valueValidator with
          | Option.some vd => vd r == false
          | Option.none => false) then
        .error (.valueError ("Value error when parsing field " ++ f.name ++
          " according to configured validator: " ++ pyStr r))
      else
        .ok (match f.valueConverter with
             | Option.some cv => cv r
             | Option.none => r)

/-- `default_value_parser` with the subclass overrides of fields.py:
`String` stringifies non-None values, `Int` applies `int()` to non-None
values, `Float` applies `float()` and substitutes NaN for None, the base
class `Field` (BLOB) and `DateTime` return the walked value unchanged. -/
def Field.defaultValueParser (f : Field) (record : Val) : Except PyExc Val :=
  match f.ftype with
  | .blob => f.baseParse record
  | .datetime => f.baseParse record
  | .text => do
      let r ← f.baseParse record
      match r with
      | Val.none => pure Val.none
      | v => pure (Val.str (pyStr v))
  | .int => do
      let r ← f.baseParse record
      match r with
      | Val.none => pure Val.none
      | v => do
          let n ← pyIntCast v
          pure (Val.int n)
  | .float => do
      let r ← f.baseParse record
      match r with
      | Val.none => pure (Val.float PyFloat.nan)
      | v => do
          let q ← pyFloatCast v
          pure (Val.float q)

/-- `Field.parse`: the configured `value_parser`, defaulting to
`default_value_parser`. -/
def Field.parse (f : Field) (record : Val) : Except PyExc Val :=
  match f.valueParser with
  | Option.some p => p record
  | Option.none => f.defaultValueParser record

/-- The immutable configuration of a `JsonDataCollector` (constructor
arguments).  `collection_name`, `in_memory` and `sorted_keys` only affect
table/index DDL, which has no bearing on row content, and the error handler
is modelled by returning the list of `(exception, record)` pairs it would
receive, so none of the three appears here.  `insertFault` models the
storage collaborator: it says which value rows the underlying engine
rejects with an error on INSERT (`fun _ => false` is a healthy engine). -/
structure CollectorCfg where
  fields : List Field
  uniqueKeys : List ℕ := []
  skipDuplicate : Bool := false
  append : Bool := false
  batchSize : ℕ := 4096
  insertFault : List Val → Bool := fun _ => false

/-- A bucket of the in-memory duplicate-detection table: the list of
unique-key tuples sharing one digest. -/
abbrev Bucket := List (List Val)

/-- The mutable state of a `JsonDataCollector` plus its SQLite backend:
`hashKeys` is `self._hash_keys` (a digest-keyed association list, matching
Python's insertion-ordered dict), `incId` is `self._inc_id`, `rows` is the
content of the backing table (each row laid out in `SELECT *` column order:
the field values followed by the `__id` column), `committedCount` is how
many of those rows have been committed, and `commitCount` counts the
`commit()` calls issued by `__insert` and `__del__` in this session. -/
structure CollectorState where
  hashKeys : List (String × Bucket)
  incId : ℕ
  rows : List (List Val)
  committedCount : ℕ
  commitCount : ℕ
deriving DecidableEq

/-- `self.fields[i]`; every call site in the source indexes in range, so
the out-of-range `IndexError` is not modelled. -/
def fieldAt (fs : List Field) (i : ℕ) : Field :=
  fs.getD i default

/-- A parsed record `r_parsed`, a Python dict from field name to parsed
value; `lookupName` is `r[name]` (every call site looks up a name that is
present, so `KeyError` is not modelled). -/
abbrev Parsed := List (String × Val)

def lookupName (es : Parsed) (k : String) : Val :=
  ((es.find? (fun e => e.1 == k)).map Prod.snd).getD Val.none

/-- The argument shapes `__hash_unique_key` is called with: a parsed-record
dict (from `__insert`) or a stored-row tuple (from `__init_sqlite`'s
rehydration scan). -/
inductive HashArg
| dict (es : Parsed)
| tup (vs : List Val)

/-- The md5 pre-image that `__hash_unique_key` digests: the concatenation
of `str(value)` over the unique-key fields, in `unique_keys` order.  The
digest is modelled by this pre-image itself; the code never inspects the
digest beyond using it as a dict key, and bucket membership is decided by
exact tuple comparison, so replacing md5 by its pre-image preserves every
observable outcome (an md5 collision would only merge two buckets that the
tuple comparison separates again). -/
def digestOf (fs : List Field) (uniqueKeys : List ℕ) (record : HashArg) : String :=
  String.join (uniqueKeys.map (fun i =>
    match record with
    | .dict es => pyStr (lookupName es (fieldAt fs i).name)
    | .tup vs => pyStr (vs.getD i Val.none)))

/-- `JsonDataCollector.__hash_unique_key`: raises `RuntimeError` when
`unique_keys` is empty, otherwise digests the unique-key values. -/
def hashUniqueKey (fs : List Field) (uniqueKeys : List ℕ) (record : HashArg) :
    Except PyExc String :=
  if uniqueKeys.length = 0 then
    .error (.runtimeError "No unique key specified when hashing")
  else
    .ok (digestOf fs uniqueKeys record)

/-- `self._hash_keys.get(h, None)`. -/
def bucketGet (hk : List (String × Bucket)) (h : String) : Option Bucket :=
  (hk.find? (fun e => e.1 == h)).map Prod.snd

/-- The bucket update both `__insert` and the rehydration scan perform:
start a one-element bucket when the digest is new, otherwise append the
tuple to the existing bucket. -/
def bucketAdd (hk : List (String × Bucket)) (h : String) (t : List Val) :
    List (String × Bucket) :=
  match bucketGet hk h with
  | Option.none => hk ++ [(h, [t])]
  | Option.some _ => hk.map (fun e => if e.1 == h then (e.1, e.2 ++ [t]) else e)

/-- `JsonDataCollector.__tuple_eq`: positionwise Python `!=` comparison
over the indices of the first tuple.  (Call sites always compare tuples of
equal length, so the `IndexError` a longer first tuple would raise is
rendered as `false`.) -/
def tupleEq : List Val → List Val → Bool
  | [], _ => true
  | _ :: _, [] => false
  | x :: xs, y :: ys => if pyEq x y then tupleEq xs ys else false

/-- The tuple `r_uniq_keys = tuple(r[self.fields[key_id].name] for key_id
in self._unique_keys)`. -/
def keyTuple (cfg : CollectorCfg) (r : Parsed) : List Val :=
  cfg.uniqueKeys.map (fun i => lookupName r (fieldAt cfg.fields i).name)

/-- `JsonDataCollector.__has_duplicate`: fetch the digest's bucket and
compare the record's key tuple against every stored tuple, true on the
first exact match. -/
def hasDuplicate (cfg : CollectorCfg) (st : CollectorState) (r : Parsed) (rHash : String) :
    Bool :=
  match bucketGet st.hashKeys rHash with
  | Option.none => false
  | Option.some bucket => bucket.any (fun t => tupleEq t (keyTuple cfg r))

/-- A `commit()` call on the SQLite connection: every row inserted so far
becomes durable. -/
def commitState (st : CollectorState) : CollectorState :=
  { st with committedCount := st.rows.length, commitCount := st.commitCount + 1 }

/-- The batch-commit check closing `__insert`: commit exactly when
`self._inc_id % self._batch_size == 0` (evaluated after the optional
increment). -/
def maybeCommit (cfg : CollectorCfg) (st : CollectorState) : CollectorState :=
  if st.incId % cfg.batchSize = 0 then commitState st else st

/-- The value list `values = list(r[x.name] for x in self.fields)` bound
into the INSERT statement. -/
def rowValues (cfg : CollectorCfg) (r : Parsed) : List Val :=
  cfg.fields.map (fun f => lookupName r f.name)

/-- `JsonDataCollector.__insert`: hash the parsed record (unconditionally —
this is the first statement of the method), then, unless duplicate skipping
is on and a duplicate is found, insert the row with the current `_inc_id`,
record its key tuple in the hash table and increment `_inc_id`; finally run
the batch-commit check.  The row is stored in table column order (field
values first, `__id` last), matching the CREATE TABLE layout that the
rehydration scan later reads back. -/
def insertRecord (cfg : CollectorCfg) (st : CollectorState) (r : Parsed) :
    Except PyExc CollectorState := do
  let rHash ← hashUniqueKey cfg.fields cfg.uniqueKeys (.dict r)
  let st1 ←
    if cfg.skipDuplicate = false ∨ hasDuplicate cfg st r rHash = false then
      if cfg.insertFault (rowValues cfg r) then
        Except.error (.storageError "sqlite error on INSERT")
      else
        Except.ok { st with
          rows := st.rows ++ [rowValues cfg r ++ [Val.int st.incId]],
          hashKeys := bucketAdd st.hashKeys rHash (keyTuple cfg r),
          incId := st.incId + 1 }
    else Except.ok st
  Except.ok (maybeCommit cfg st1)

/-- The dict comprehension `{f.name: f.parse(record) for f in self.fields}`
of `add`: parse every field in declaration order, failing fast on the first
exception. -/
def parseRecord (fs : List Field) (record : Val) : Except PyExc Parsed :=
  fs.mapM (fun f => do
    let v ← f.parse record
    pure (f.name, v))

/-- One iteration of `add`'s loop: parse the record and insert it; any
exception raised is caught at per-record granularity and appended to the
list of `(exception, record)` pairs handed to the error handler (or
silently dropped when no handler is configured), leaving the collector
state untouched — which matches the source, where no mutation of
`self` precedes a raise inside `__insert`. -/
def addOne (cfg : CollectorCfg) (acc : CollectorState × List (PyExc × Val)) (record : Val) :
    CollectorState × List (PyExc × Val) :=
  match (do insertRecord cfg acc.1 (← parseRecord cfg.fields record) :
      Except PyExc CollectorState) with
  | .ok st => (st, acc.2)
  | .error e => (acc.1, acc.2 ++ [(e, record)])

/-- The `for record in r_list` loop of `add`, returning the final state and
the caught `(exception, record)` pairs. -/
def processRecords (cfg : CollectorCfg) (st : CollectorState) (records : List Val) :
    CollectorState × List (PyExc × Val) :=
  records.foldl (addOne cfg) (st, [])

/-- The argument of `add`: a Python list of records, or a single (dict-like)
object. -/
inductive AddArg
| list (rs : List Val)
| one (v : Val)

/-- The keys of a dictionary chain, in order (`list(d)` on a Python dict). -/
def Val.dictKeys : Val → List String
  | .dcons k _ rest => k :: rest.dictKeys
  | _ => []

/-- The wrapping `r_list = r if isinstance(r, list) else list(r)` at the
top of `add`: a list is taken as is; any other value is passed to the
built-in `list()`, which enumerates a dict's KEYS and a string's
characters, and raises `TypeError` on non-iterables.  This raise happens
outside the per-record `try`, so it propagates. -/
def pyListify : AddArg → Except PyExc (List Val)
  | .list rs => .ok rs
  | .one v =>
      if v.isDict then .ok (v.dictKeys.map Val.str)
      else
        match v with
        | .str s => .ok (s.data.map (fun c => Val.str (String.mk [c])))
        | _ => .error (.typeError ("object is not iterable: " ++ pyStr v))

/-- `JsonDataCollector.add`. -/
def add (cfg : CollectorCfg) (st : CollectorState) (r : AddArg) :
    Except PyExc (CollectorState × List (PyExc × Val)) := do
  let rList ← pyListify r
  pure (processRecords cfg st rList)

/-- `JsonDataCollector.__init_sqlite`, run once by the constructor.
`existing` is the content of a pre-existing backing table (empty for a
fresh database).  Truncate mode drops the table (discarding `existing`) and
recreates it; append mode keeps it, scans every stored row to rebuild the
duplicate-detection hash table bucket-by-bucket (`__hash_unique_key` can
raise here, and the constructor does not catch it), and continues the
auto-increment id at `COUNT(1) + 1`.  CREATE TABLE / CREATE INDEX
statements change no row content and are not modelled. -/
def initSqlite (cfg : CollectorCfg) (existing : List (List Val)) :
    Except PyExc CollectorState := do
  let tableRows := if cfg.append then existing else []
  let hashKeys ←
    if cfg.append then
      tableRows.foldlM (fun hk rec => do
        let recHash ← hashUniqueKey cfg.fields cfg.uniqueKeys (.tup rec)
        let recKeys := cfg.uniqueKeys.map (fun i => rec.getD i Val.none)
        pure (bucketAdd hk recHash recKeys)) ([] : List (String × Bucket))
    else pure ([] : List (String × Bucket))
  let incId := if cfg.append then tableRows.length + 1 else 1
  pure { hashKeys := hashKeys, incId := incId, rows := tableRows,
         committedCount := tableRows.length, commitCount := 0 }

/-- The state of a freshly initialized collector over an empty or truncated
table. -/
def freshState : CollectorState :=
  { hashKeys := [], incId := 1, rows := [], committedCount := 0, commitCount := 0 }

/-- `JsonDataCollector.__del__`: a final commit (the connection close
releases the handle and is not otherwise observable here). -/
def finalize (st : CollectorState) : CollectorState :=
  commitState st

/-- The `__id` column of a stored row (the trailing column). -/
def rowId (row : List Val) : Val :=
  row.getLastD Val.none

/-- The identifier value stored in the `__id` column for counter value `n`. -/
def idVal (n : ℕ) : Val :=
  Val.int n

/-- The identifier bookkeeping invariant: stored ids are `1, 2, …, n` in
storage order and the counter stands at `n + 1`. -/
def IdInv (st : CollectorState) : Prop :=
  st.rows.map rowId = (List.range st.rows.length).map (fun k => idVal (k + 1)) ∧
  st.incId = st.rows.length + 1

/-
Concrete scenarios used by the individual claims.  Each claim has its own
configuration and records so the scenarios stay independent.
-/

/-- C1 scenario: one BLOB field, NO unique keys, duplicate skipping OFF —
the constructor's default key configuration. -/
def c1cfg : CollectorCfg :=
  { fields := [{ name := "a", rawName := "a" }], uniqueKeys := [] }

def c1rec : Val := Val.mkDict [("a", Val.int 1)]

/-- C2 scenario: a healthy schema but a storage engine that rejects every
INSERT (e.g. disk full). -/
def c2cfg : CollectorCfg :=
  { fields := [{ name := "a", rawName := "a" }], uniqueKeys := [0],
    insertFault := fun _ => true }

def c2rec : Val := Val.mkDict [("a", Val.int 1)]

/-- C3 scenario: batch size 3, seven distinct records. -/
def c3cfg : CollectorCfg :=
  { fields := [{ name := "x", rawName := "x", ftype := .int }], uniqueKeys := [0],
    skipDuplicate := true, batchSize := 3 }

def c3recs : List Val :=
  ([1, 2, 3, 4, 5, 6, 7] : List ℤ).map (fun n => Val.mkDict [("x", Val.int n)])

/-- The collector state after ingesting the first `n` of the seven C3
records. -/
def c3after (n : ℕ) : CollectorState :=
  (processRecords c3cfg freshState (c3recs.take n)).1

/-- C4 scenario: one field reading nested path `a.b`. -/
def c4cfg : CollectorCfg :=
  { fields := [{ name := "a", rawName := "a.b" }], uniqueKeys := [0] }

def c4rec : Val := Val.mkDict [("a", Val.mkDict [("b", Val.int 5)])]

/-- C6 counterexample scenario: the single unique-key field is a `Float`
whose source path is missing, so it parses to NaN. -/
def c6cfg : CollectorCfg :=
  { fields := [{ name := "x", rawName := "x", ftype := .float }], uniqueKeys := [0],
    skipDuplicate := true }

/-- C6 witness scenario: an ordinary integer-keyed collection. -/
def c6wcfg : CollectorCfg :=
  { fields := [{ name := "x", rawName := "x", ftype := .int }], uniqueKeys := [0] }

def c6wrec : Val := Val.mkDict [("x", Val.int 7)]

/-- C7 scenario: integer-keyed collection with duplicate skipping on. -/
def c7cfg : CollectorCfg :=
  { fields := [{ name := "x", rawName := "x", ftype := .int }], uniqueKeys := [0],
    skipDuplicate := true }

def c7cfgA : CollectorCfg := { c7cfg with append := true }

def c7A : Val := Val.mkDict [("x", Val.int 1)]

def c7B : Val := Val.mkDict [("x", Val.int 2)]

def c7C : Val := Val.mkDict [("x", Val.int 3)]

def c7D : Val := Val.mkDict [("x", Val.int 4)]

/-- The three rows {A, B, C} as they sit in the table after the first
session. -/
def c7rows : List (List Val) :=
  [[Val.int 1, Val.int 1], [Val.int 2, Val.int 2], [Val.int 3, Val.int 3]]

/-- The collector state produced by reopening the {A, B, C} table in append
mode: hash table rehydrated bucket-by-bucket, counter at 4. -/
def c7st2 : CollectorState :=
  { hashKeys := [("1", [[Val.int 1]]), ("2", [[Val.int 2]]), ("3", [[Val.int 3]])],
    incId := 4, rows := c7rows, committedCount := 3, commitCount := 0 }

/-- C8 witness fields. -/
def c8float : Field := { name := "x", rawName := "v", ftype := .float }

def c8int : Field := { name := "x", rawName := "v", ftype := .int }

def c8text : Field := { name := "x", rawName := "v", ftype := .text }

/-- C9 witness field: base-class `Field` with dotted source path `a.b`. -/
def c9field : Field := { name := "out", rawName := "a.b" }

def c9rec : Val := Val.mkDict [("a", Val.mkDict [("x", Val.int 1)])]

/-- C10 witness scenario: append mode with no unique keys over a table
holding one row. -/
def c10cfg : CollectorCfg :=
  { fields := [{ name := "a", rawName := "a" }], uniqueKeys := [], append := true }

def c10row : List Val := [Val.int 1, Val.int 1]

/-- Sanity: truncate-mode construction always yields the fresh state, no
matter what the file previously held. -/
theorem initSqlite_truncate (cfg : CollectorCfg) (existing : List (List Val))
    (h : cfg.append = false) : initSqlite cfg existing = .ok freshState := by
  simp only [initSqlite, h, Bind.bind, Except.bind, if_neg Bool.false_ne_true, pure]
  rfl

@[simp] theorem commitState_rows (st : CollectorState) : (commitState st).rows = st.rows := rfl

@[simp] theorem commitState_hashKeys (st : CollectorState) :
    (commitState st).hashKeys = st.hashKeys := rfl

@[simp] theorem commitState_incId (st : CollectorState) : (commitState st).incId = st.incId := rfl

@[simp] theorem maybeCommit_rows (cfg : CollectorCfg) (st : CollectorState) :
    (maybeCommit cfg st).rows = st.rows := by
  unfold maybeCommit; split <;> rfl

@[simp] theorem maybeCommit_hashKeys (cfg : CollectorCfg) (st : CollectorState) :
    (maybeCommit cfg st).hashKeys = st.hashKeys := by
  unfold maybeCommit; split <;> rfl

@[simp] theorem maybeCommit_incId (cfg : CollectorCfg) (st : CollectorState) :
    (maybeCommit cfg st).incId = st.incId := by
  unfold maybeCommit; split <;> rfl

/-- `__hash_unique_key` succeeds exactly on a non-empty unique-key list. -/
theorem hashUniqueKey_ok (fs : List Field) (uk : List ℕ) (rec : HashArg) (h : uk ≠ []) :
    hashUniqueKey fs uk rec = .ok (digestOf fs uk rec) := by
  unfold hashUniqueKey
  rw [if_neg (by simpa using h)]

/-- Characterization of `__insert` on the accepting path: duplicate skipping
off or no duplicate found, storage accepts the row. -/
theorem insertRecord_insert (cfg : CollectorCfg) (st : CollectorState) (r : Parsed)
    (hk : cfg.uniqueKeys ≠ [])
    (hcond : cfg.skipDuplicate = false ∨
      hasDuplicate cfg st r (digestOf cfg.fields cfg.uniqueKeys (.dict r)) = false)
    (hfault : cfg.insertFault (rowValues cfg r) = false) :
    insertRecord cfg st r = .ok (maybeCommit cfg { st with
      rows := st.rows ++ [rowValues cfg r ++ [Val.int st.incId]],
      hashKeys := bucketAdd st.hashKeys (digestOf cfg.fields cfg.uniqueKeys (.dict r))
        (keyTuple cfg r),
      incId := st.incId + 1 }) := by
  unfold insertRecord
  rw [hashUniqueKey_ok cfg.fields cfg.uniqueKeys _ hk]
  simp only [Bind.bind, Except.bind]
  rw [if_pos hcond, if_neg (by simp [hfault])]

/-- Characterization of `__insert` on the duplicate-skip path. -/
theorem insertRecord_skip (cfg : CollectorCfg) (st : CollectorState) (r : Parsed)
    (hk : cfg.uniqueKeys ≠ [])
    (hskip : cfg.skipDuplicate = true)
    (hdup : hasDuplicate cfg st r (digestOf cfg.fields cfg.uniqueKeys (.dict r)) = true) :
    insertRecord cfg st r = .ok (maybeCommit cfg st) := by
  unfold insertRecord
  rw [hashUniqueKey_ok cfg.fields cfg.uniqueKeys _ hk]
  simp only [Bind.bind, Except.bind]
  rw [if_neg (by simp [hskip, hdup])]

/-- Characterization of `__insert` when the storage engine rejects the row:
the exception leaves the method before any state is touched. -/
theorem insertRecord_fault (cfg : CollectorCfg) (st : CollectorState) (r : Parsed)
    (hk : cfg.uniqueKeys ≠ [])
    (hcond : cfg.skipDuplicate = false ∨
      hasDuplicate cfg st r (digestOf cfg.fields cfg.uniqueKeys (.dict r)) = false)
    (hfault : cfg.insertFault (rowValues cfg r) = true) :
    insertRecord cfg st r = .error (.storageError "sqlite error on INSERT") := by
  unfold insertRecord
  rw [hashUniqueKey_ok cfg.fields cfg.uniqueKeys _ hk]
  simp only [Bind.bind, Except.bind]
  rw [if_pos hcond, if_pos (by simp [hfault])]

/-- One loop iteration of `add` when parsing and insertion both succeed. -/
theorem addOne_ok (cfg : CollectorCfg) (acc : CollectorState × List (PyExc × Val))
    (record : Val) (p : Parsed) (st' : CollectorState)
    (hp : parseRecord cfg.fields record = .ok p)
    (hi : insertRecord cfg acc.1 p = .ok st') :
    addOne cfg acc record = (st', acc.2) := by
  unfold addOne
  simp only [Bind.bind, Except.bind, hp, hi]

/-- One loop iteration of `add` when insertion raises: the exception is
caught, the pair is routed to the error handler, the state is unchanged. -/
theorem addOne_insert_error (cfg : CollectorCfg) (acc : CollectorState × List (PyExc × Val))
    (record : Val) (p : Parsed) (e : PyExc)
    (hp : parseRecord cfg.fields record = .ok p)
    (hi : insertRecord cfg acc.1 p = .error e) :
    addOne cfg acc record = (acc.1, acc.2 ++ [(e, record)]) := by
  unfold addOne
  simp only [Bind.bind, Except.bind, hp, hi]

/-- One loop iteration of `add` when field extraction raises. -/
theorem addOne_parse_error (cfg : CollectorCfg) (acc : CollectorState × List (PyExc × Val))
    (record : Val) (e : PyExc)
    (hp : parseRecord cfg.fields record = .error e) :
    addOne cfg acc record = (acc.1, acc.2 ++ [(e, record)]) := by
  unfold addOne
  simp only [Bind.bind, Except.bind, hp]

/-- Every successful run of `__insert` either leaves rows and counter alone
(duplicate skipped) or appends exactly one row carrying the current counter
value and increments the counter by one. -/
theorem insertRecord_shape (cfg : CollectorCfg) (st : CollectorState) (r : Parsed)
    (st' : CollectorState) (h : insertRecord cfg st r = .ok st') :
    (st'.rows = st.rows ∧ st'.incId = st.incId) ∨
    (∃ values, st'.rows = st.rows ++ [values ++ [Val.int st.incId]] ∧
      st'.incId = st.incId + 1) := by
  unfold insertRecord at h
  cases hh : hashUniqueKey cfg.fields cfg.uniqueKeys (.dict r) with
  | error e => rw [hh] at h; simp only [Bind.bind, Except.bind] at h; exact absurd h (by simp)
  | ok rHash =>
      rw [hh] at h
      simp only [Bind.bind, Except.bind] at h
      by_cases hcond : cfg.skipDuplicate = false ∨ hasDuplicate cfg st r rHash = false
      · rw [if_pos hcond] at h
        by_cases hfault : cfg.insertFault (rowValues cfg r) = true
        · rw [if_pos (by simp [hfault])] at h; exact absurd h (by simp)
        · rw [if_neg (by simpa using hfault)] at h
          injection h with h
          right
          exact ⟨rowValues cfg r, by rw [← h]; simp, by rw [← h]; simp⟩
      · rw [if_neg hcond] at h
        injection h with h
        left
        exact ⟨by rw [← h]; simp, by rw [← h]; simp⟩

/-- Every loop iteration of `add` either leaves rows and counter alone or
appends one row carrying the current counter and increments it. -/
theorem addOne_shape (cfg : CollectorCfg) (acc : CollectorState × List (PyExc × Val))
    (record : Val) :
    ((addOne cfg acc record).1.rows = acc.1.rows ∧
      (addOne cfg acc record).1.incId = acc.1.incId) ∨
    (∃ values, (addOne cfg acc record).1.rows =
        acc.1.rows ++ [values ++ [Val.int acc.1.incId]] ∧
      (addOne cfg acc record).1.incId = acc.1.incId + 1) := by
  cases hp : parseRecord cfg.fields record with
  | error e => rw [addOne_parse_error cfg acc record e hp]; left; exact ⟨rfl, rfl⟩
  | ok p =>
      cases hi : insertRecord cfg acc.1 p with
      | error e => rw [addOne_insert_error cfg acc record p e hp hi]; left; exact ⟨rfl, rfl⟩
      | ok st' =>
          rw [addOne_ok cfg acc record p st' hp hi]
          exact insertRecord_shape cfg acc.1 p st' hi

theorem getLastD_append_single (l : List Val) (v d : Val) : (l ++ [v]).getLastD d = v := by
  induction l generalizing d with
  | nil => rfl
  | cons a l ih => simp only [List.cons_append, List.getLastD_cons, ih]

theorem idInv_fresh : IdInv freshState := ⟨rfl, rfl⟩

theorem idInv_addOne (cfg : CollectorCfg) (acc : CollectorState × List (PyExc × Val))
    (record : Val) (h : IdInv acc.1) : IdInv (addOne cfg acc record).1 := by
  rcases addOne_shape cfg acc record with ⟨hr, hi⟩ | ⟨values, hr, hi⟩
  · exact ⟨by rw [hr, h.1], by rw [hi, hr, h.2]⟩
  · constructor
    · rw [hr, List.map_append, List.length_append]
      simp only [List.map_cons, List.map_nil, List.length_cons, List.length_nil]
      rw [rowId, getLastD_append_single, h.1, h.2, List.range_succ, List.map_append]
      simp only [List.map_cons, List.map_nil]
      rfl
    · rw [hi, hr, h.2]
      simp

theorem idInv_foldl (cfg : CollectorCfg) (records : List Val) :
    ∀ acc : CollectorState × List (PyExc × Val), IdInv acc.1 →
      IdInv (records.foldl (addOne cfg) acc).1 := by
  induction records with
  | nil => intro acc h; exact h
  | cons r rs ih =>
      intro acc h
      exact ih (addOne cfg acc r) (idInv_addOne cfg acc r h)

/-- A tuple whose every component is Python-equal to itself compares equal
to itself under `__tuple_eq` (NaN components are the values this can fail
for). -/
theorem tupleEq_self (t : List Val) (h : ∀ v ∈ t, pyEq v v = true) : tupleEq t t = true := by
  induction t with
  | nil => rfl
  | cons a t ih =>
      unfold tupleEq
      rw [if_pos (h a (List.mem_cons_self a t))]
      exact ih (fun v hv => h v (List.mem_cons_of_mem a hv))

/-- `__has_duplicate` on an empty hash table is false. -/
theorem hasDuplicate_hashKeys_nil (cfg : CollectorCfg) (st : CollectorState) (r : Parsed)
    (rHash : String) (h : st.hashKeys = []) : hasDuplicate cfg st r rHash = false := by
  simp [hasDuplicate, h, bucketGet]

/-- `__has_duplicate` finds the record when its digest's bucket holds
exactly its own key tuple and that tuple compares equal to itself. -/
theorem hasDuplicate_single_self (cfg : CollectorCfg) (st : CollectorState) (r : Parsed)
    (h : String) (hhk : st.hashKeys = [(h, [keyTuple cfg r])])
    (hself : tupleEq (keyTuple cfg r) (keyTuple cfg r) = true) :
    hasDuplicate cfg st r h = true := by
  simp [hasDuplicate, hhk, bucketGet, List.find?, hself]

/-- Inserting the same successfully-parsed record twice into a fresh
collection with duplicate skipping ON stores it once, provided every
unique-key value is Python-equal to itself. -/
theorem processTwice_skip_true (cfg : CollectorCfg) (r : Val) (p : Parsed)
    (hk : cfg.uniqueKeys ≠ [])
    (hskip : cfg.skipDuplicate = true)
    (hp : parseRecord cfg.fields r = .ok p)
    (hfault : ∀ vs, cfg.insertFault vs = false)
    (hself : ∀ v ∈ keyTuple cfg p, pyEq v v = true) :
    (processRecords cfg freshState [r, r]).1.rows.length = 1 := by
  have h1 := insertRecord_insert cfg freshState p hk
    (Or.inr (hasDuplicate_hashKeys_nil cfg freshState p _ rfl))
    (hfault _)
  set st1 : CollectorState := maybeCommit cfg
    { freshState with
      rows := freshState.rows ++ [rowValues cfg p ++ [Val.int freshState.incId]],
      hashKeys := bucketAdd freshState.hashKeys
        (digestOf cfg.fields cfg.uniqueKeys (.dict p)) (keyTuple cfg p),
      incId := freshState.incId + 1 } with hst1
  have hdup : hasDuplicate cfg st1 p (digestOf cfg.fields cfg.uniqueKeys (.dict p)) = true := by
    apply hasDuplicate_single_self cfg st1 p _ _ (tupleEq_self _ hself)
    rw [hst1, maybeCommit_hashKeys]
    rfl
  have h2 := insertRecord_skip cfg st1 p hk hskip hdup
  simp only [processRecords, List.foldl_cons, List.foldl_nil]
  rw [addOne_ok cfg (freshState, []) r p _ hp h1]
  rw [addOne_ok cfg (st1, []) r p _ hp h2]
  rw [maybeCommit_rows, hst1, maybeCommit_rows]
  rfl

/-- Inserting the same successfully-parsed record twice into a fresh
collection with duplicate skipping OFF stores it twice. -/
theorem processTwice_skip_false (cfg : CollectorCfg) (r : Val) (p : Parsed)
    (hk : cfg.uniqueKeys ≠ [])
    (hskip : cfg.skipDuplicate = false)
    (hp : parseRecord cfg.fields r = .ok p)
    (hfault : ∀ vs, cfg.insertFault vs = false) :
    (processRecords cfg freshState [r, r]).1.rows.length = 2 := by
  have h1 := insertRecord_insert cfg freshState p hk (Or.inl hskip) (hfault _)
  set st1 : CollectorState := maybeCommit cfg
    { freshState with
      rows := freshState.rows ++ [rowValues cfg p ++ [Val.int freshState.incId]],
      hashKeys := bucketAdd freshState.hashKeys
        (digestOf cfg.fields cfg.uniqueKeys (.dict p)) (keyTuple cfg p),
      incId := freshState.incId + 1 } with hst1
  have h2 := insertRecord_insert cfg st1 p hk (Or.inl hskip) (hfault _)
  simp only [processRecords, List.foldl_cons, List.foldl_nil]
  rw [addOne_ok cfg (freshState, []) r p _ hp h1]
  rw [addOne_ok cfg (st1, []) r p _ hp h2]
  rw [maybeCommit_rows]
  simp only [List.length_append]
  rw [hst1, maybeCommit_rows]
  rfl

/-- Claim C1: the claim says that with duplicate skipping disabled `add`
stores every successfully-extracted record without computing a digest, in
particular when `uniqueKeys` is empty.  The code contradicts this:
`__insert` calls `__hash_unique_key` unconditionally as its first
statement, so with `unique_keys=[]` (the constructor default) hashing
raises `RuntimeError`, the per-record handler swallows it, and NOTHING is
ever stored — the table stays empty and every record is routed to the
error handler. -/
theorem no_unique_keys_add_drops_records :
    hashUniqueKey c1cfg.fields c1cfg.uniqueKeys (.dict [("a", Val.int 1)]) =
      .error (.runtimeError "No unique key specified when hashing") ∧
    add c1cfg freshState (.list [c1rec]) =
      .ok (freshState, [(.runtimeError "No unique key specified when hashing", c1rec)]) ∧
    (processRecords c1cfg freshState [c1rec]).1.rows = [] := by decide

/-- Counterexample to C2 as stated: with a storage engine that rejects the
INSERT of a successfully-extracted record, `add` returns normally — the
`except Exception` clause of `add` catches the storage error and routes it
to the error handler instead of letting it propagate to the caller. -/
theorem storage_error_is_caught :
    add c2cfg freshState (.list [c2rec]) =
      .ok (freshState, [(.storageError "sqlite error on INSERT", c2rec)]) := by decide

/-- Claim C2 (amended): a `StorageError` raised while inserting a
successfully-extracted record is caught by `add`'s per-record exception
handler and routed to the configured error handler (or silently dropped),
leaving the collector state unchanged; it does not propagate to the
caller of `add`. -/
theorem storage_error_routed_to_handler (cfg : CollectorCfg) (st : CollectorState)
    (r : Val) (p : Parsed)
    (hk : cfg.uniqueKeys ≠ [])
    (hp : parseRecord cfg.fields r = .ok p)
    (hcond : cfg.skipDuplicate = false ∨
      hasDuplicate cfg st p (digestOf cfg.fields cfg.uniqueKeys (.dict p)) = false)
    (hfault : cfg.insertFault (rowValues cfg p) = true) :
    add cfg st (.list [r]) = .ok (st, [(.storageError "sqlite error on INSERT", r)]) := by
  unfold add pyListify
  simp only [Bind.bind, Except.bind, pure, Except.pure, processRecords, List.foldl_cons, List.foldl_nil]
  rw [addOne_insert_error cfg (st, []) r p _ hp (insertRecord_fault cfg st p hk hcond hfault)]
  rfl

/-- Witness for C2: the amended theorem applied to the concrete faulty
engine of `c2cfg`. -/
theorem storage_error_routed_to_handler_witness :
    add c2cfg freshState (.list [c2rec]) =
      .ok (freshState, [(.storageError "sqlite error on INSERT", c2rec)]) :=
  storage_error_routed_to_handler c2cfg freshState c2rec [("a", Val.int 1)]
    (by decide) (by decide) (Or.inl rfl) rfl

/-- Counterexample to C3 as stated: the claim places the first interior
commit after the 3rd accepted record, but a commit has already happened
after the 2nd record (the commit test compares the post-increment counter,
i.e. the NEXT id, with the batch size) and none happens at the 3rd. -/
theorem batch_commit_before_third_record :
    (c3after 2).commitCount = 1 ∧ (c3after 3).commitCount = 1 := by decide

/-- Claim C3 (amended): with batchSize = 3, ingesting 7 accepted records
triggers exactly 2 interior commits, occurring after the 2nd and after the
5th accepted record (the commit fires when the incremented identifier
counter is a multiple of the batch size), and the 6th and 7th records are
flushed only at finalization. -/
theorem batch_commit_boundaries :
    (c3after 1).commitCount = 0 ∧ (c3after 2).commitCount = 1 ∧
    (c3after 3).commitCount = 1 ∧ (c3after 4).commitCount = 1 ∧
    (c3after 5).commitCount = 2 ∧ (c3after 6).commitCount = 2 ∧
    (c3after 7).commitCount = 2 ∧
    (c3after 7).rows.length = 7 ∧
    (c3after 7).committedCount = 5 ∧
    (finalize (c3after 7)).committedCount = 7 := by decide

/-- Claim C4 is contradicted by the code: `add` wraps a single (non-list)
dict `r` via `list(r)`, which enumerates the dict's KEYS, so each top-level
key string — not the dict itself — is processed as a record.  Here
`add({"a": {"b": 5}})` parses the string `"a"` (every field extracts
null) and stores `[null, 1]`, while `add([{"a": {"b": 5}}])` stores
`[5, 1]`. -/
theorem add_single_dict_iterates_keys :
    pyListify (.one c4rec) = .ok [Val.str "a"] ∧
    (add c4cfg freshState (.list [c4rec])).map (fun out => out.1.rows) =
      .ok [[Val.int 5, Val.int 1]] ∧
    (add c4cfg freshState (.one c4rec)).map (fun out => out.1.rows) =
      .ok [[Val.none, Val.int 1]] := by decide

/-- Claim C5: on a fresh table, the identifiers assigned to the stored
(accepted) rows are exactly 1, 2, …, n in storage order — consecutive,
gapless, starting at 1 — and the counter stands one past the stored row
count, for EVERY configuration and EVERY input sequence; skipped
duplicates and failed records never consume an identifier. -/
theorem identifier_monotonic (cfg : CollectorCfg) (records : List Val) :
    (processRecords cfg freshState records).1.rows.map rowId =
      (List.range (processRecords cfg freshState records).1.rows.length).map
        (fun k => idVal (k + 1)) ∧
    (processRecords cfg freshState records).1.incId =
      (processRecords cfg freshState records).1.rows.length + 1 :=
  idInv_foldl cfg records (freshState, []) idInv_fresh

/-- Counterexample to C6 as stated: a record whose unique-key field parses
to NaN (a `Float` field with a missing source path) is stored TWICE even
with duplicate skipping enabled and a non-empty unique-key set, because
`__tuple_eq` uses Python `!=` and NaN is unequal to itself. -/
theorem nan_record_defeats_duplicate_skip :
    c6cfg.skipDuplicate = true ∧ c6cfg.uniqueKeys = [0] ∧
    parseRecord c6cfg.fields (Val.mkDict []) = .ok [("x", Val.float .nan)] ∧
    (processRecords c6cfg freshState [Val.mkDict [], Val.mkDict []]).1.rows =
      [[Val.float .nan, Val.int 1], [Val.float .nan, Val.int 2]] := by decide

/-- Claim C6 (amended): ingesting the same successfully-extracted record
twice into a fresh Collection with a non-empty unique-key set stores
exactly one row when duplicate skipping is enabled — PROVIDED every
unique-key value of the record is Python-equal to itself (NaN values are
the exception) — and stores both copies when skipping is disabled. -/
theorem duplicate_idempotent (cfg0 : CollectorCfg) (r : Val) (p : Parsed)
    (hk : cfg0.uniqueKeys ≠ [])
    (hp : parseRecord cfg0.fields r = .ok p)
    (hfault : ∀ vs, cfg0.insertFault vs = false)
    (hself : ∀ v ∈ keyTuple cfg0 p, pyEq v v = true) :
    (processRecords { cfg0 with skipDuplicate := true } freshState [r, r]).1.rows.length = 1 ∧
    (processRecords { cfg0 with skipDuplicate := false } freshState [r, r]).1.rows.length = 2 :=
  ⟨processTwice_skip_true { cfg0 with skipDuplicate := true } r p hk rfl hp hfault hself,
   processTwice_skip_false { cfg0 with skipDuplicate := false } r p hk rfl hp hfault⟩

/-- Witness for C6: the amended theorem applied to an integer-keyed record. -/
theorem duplicate_idempotent_witness :
    (processRecords { c6wcfg with skipDuplicate := true } freshState
      [c6wrec, c6wrec]).1.rows.length = 1 ∧
    (processRecords { c6wcfg with skipDuplicate := false } freshState
      [c6wrec, c6wrec]).1.rows.length = 2 :=
  duplicate_idempotent c6wcfg c6wrec [("x", Val.int 7)]
    (by decide) (by decide) (fun _ => rfl) (by decide)

/-- Claim C7: after storing {A, B, C} and closing, reopening the table in
append mode rehydrates the duplicate index and sets the counter to 4;
ingesting a duplicate of A stores nothing (the table still holds exactly
{A, B, C}) and the next fresh record is stored with identifier 4. -/
theorem append_rehydration :
    (processRecords c7cfg freshState [c7A, c7B, c7C]).1.rows = c7rows ∧
    (finalize (processRecords c7cfg freshState [c7A, c7B, c7C]).1).committedCount = 3 ∧
    initSqlite c7cfgA c7rows = .ok c7st2 ∧
    (processRecords c7cfgA c7st2 [c7A]).1.rows = c7rows ∧
    (processRecords c7cfgA c7st2 [c7A]).1.incId = 4 ∧
    (processRecords c7cfgA (processRecords c7cfgA c7st2 [c7A]).1 [c7D]).1.rows =
      c7rows ++ [[Val.int 4, Val.int 4]] := by decide

/-- `float("3")` evaluates to 3.0 in the embedding. -/
theorem pyFloatCast_str_three : pyFloatCast (Val.str "3") = .ok (.num 3) := by decide

/-- Claim C8: for every record and every default-parsing field, a `Float`
(REAL) field whose path walk yields the string `"3"` parses to the float
3.0, and one whose path walk misses parses to NaN, while `Int` and `String`
(TEXT) fields parse a missing path to null — the NaN substitution applies
only to the Real type. -/
theorem real_field_round_trip (f : Field) (record : Val)
    (hparser : f.valueParser = Option.none)
    (hvd : f.valueValidator = Option.none)
    (hcv : f.valueConverter = Option.none) :
    (f.ftype = .float → walk record f.splitKeys = Option.some (Val.str "3") →
      f.parse record = .ok (Val.float (.num 3))) ∧
    (f.ftype = .float → walk record f.splitKeys = Option.none →
      f.parse record = .ok (Val.float .nan)) ∧
    (f.ftype = .int → walk record f.splitKeys = Option.none →
      f.parse record = .ok Val.none) ∧
    (f.ftype = .text → walk record f.splitKeys = Option.none →
      f.parse record = .ok Val.none) := by
  refine ⟨fun hf hw => ?_, fun hf hw => ?_, fun hf hw => ?_, fun hf hw => ?_⟩ <;>
    simp [Field.parse, hparser, Field.defaultValueParser, hf, Field.baseParse, hw, hvd, hcv,
      pyFloatCast_str_three, Bind.bind, Except.bind, pure, Except.pure]

/-- Witness for C8: the theorem applied to concrete Float/Int/Text fields
on the record `{"v": "3"}` and on the empty record (missing path). -/
theorem real_field_round_trip_witness :
    c8float.parse (Val.mkDict [("v", Val.str "3")]) = .ok (Val.float (.num 3)) ∧
    c8float.parse (Val.mkDict []) = .ok (Val.float .nan) ∧
    c8int.parse (Val.mkDict []) = .ok Val.none ∧
    c8text.parse (Val.mkDict []) = .ok Val.none :=
  ⟨(real_field_round_trip c8float (Val.mkDict [("v", Val.str "3")]) rfl rfl rfl).1
      rfl (by decide),
   (real_field_round_trip c8float (Val.mkDict []) rfl rfl rfl).2.1 rfl (by decide),
   (real_field_round_trip c8int (Val.mkDict []) rfl rfl rfl).2.2.1 rfl (by decide),
   (real_field_round_trip c8text (Val.mkDict []) rfl rfl rfl).2.2.2 rfl (by decide)⟩

/-- Claim C9: the base-class default extractor of a field with source path
`a.b` applied to `{"a": {"x": 1}}` returns null without raising; in
general, whenever the path walk fails (missing key or non-mapping value),
extraction returns null immediately — in particular the result does not
depend on the field's `defaultValue`, validator or converter, since `f` is
arbitrary here. -/
theorem missing_path_yields_null (f : Field) (record : Val)
    (hparser : f.valueParser = Option.none)
    (hft : f.ftype = .blob) :
    (f.rawName = "a.b" →
      f.parse (Val.mkDict [("a", Val.mkDict [("x", Val.int 1)])]) = .ok Val.none) ∧
    (walk record f.splitKeys = Option.none → f.parse record = .ok Val.none) := by
  constructor
  · intro hraw
    have hw : walk (Val.mkDict [("a", Val.mkDict [("x", Val.int 1)])]) f.splitKeys =
        Option.none := by
      unfold Field.splitKeys
      rw [hraw]
      decide
    simp [Field.parse, hparser, Field.defaultValueParser, hft, Field.baseParse, hw]
  · intro hw
    simp [Field.parse, hparser, Field.defaultValueParser, hft, Field.baseParse, hw]

/-- Witness for C9: the concrete base field `a.b` against `{"a": {"x": 1}}`
and against the empty record. -/
theorem missing_path_yields_null_witness :
    c9field.parse c9rec = .ok Val.none ∧
    c9field.parse (Val.mkDict []) = .ok Val.none :=
  ⟨(missing_path_yields_null c9field (Val.mkDict []) rfl rfl).1 rfl,
   (missing_path_yields_null c9field (Val.mkDict []) rfl rfl).2 (by decide)⟩

/-- Claim C10: constructing a Collection in append mode over an existing
table holding at least one row raises from the constructor when
`uniqueKeys` is empty (the rehydration scan hashes each row and
`__hash_unique_key` rejects an empty key set), while construction with
empty `uniqueKeys` succeeds in truncate mode or when the existing table is
empty. -/
theorem append_empty_unique_keys_raises (cfg : CollectorCfg) (row0 : List Val)
    (rest : List (List Val)) (hk : cfg.uniqueKeys = []) :
    (cfg.append = true →
      initSqlite cfg (row0 :: rest) =
        .error (.runtimeError "No unique key specified when hashing")) ∧
    (cfg.append = false → initSqlite cfg (row0 :: rest) = .ok freshState) ∧
    (cfg.append = true → initSqlite cfg [] = .ok freshState) := by
  refine ⟨fun ha => ?_, fun ha => initSqlite_truncate cfg _ ha, fun ha => ?_⟩
  · simp [initSqlite, ha, hk, hashUniqueKey, List.foldlM, Bind.bind, Except.bind, pure, Except.pure]
  · simp [initSqlite, ha, List.foldlM, Bind.bind, Except.bind, pure, Except.pure, freshState]

/-- Witness for C10: the concrete append-mode configuration `c10cfg` over a
one-row table and over an empty table. -/
theorem append_empty_unique_keys_raises_witness :
    initSqlite c10cfg [c10row] =
      .error (.runtimeError "No unique key specified when hashing") ∧
    initSqlite c10cfg [] = .ok freshState :=
  ⟨(append_empty_unique_keys_raises c10cfg c10row [] rfl).1 rfl,
   (append_empty_unique_keys_raises c10cfg c10row [] rfl).2.2 rfl⟩

end JsonCollector
